import Mathlib

/-!
Shallow embedding of the Social_Media_API backend (FastAPI + MongoDB).

Documents of each Mongo collection are modelled as Lean structures; a
collection is a `List` of documents; the whole datastore is a `DB` record.
Route handlers become pure functions over `DB`.  `find_one(q)` is
`List.find?` of the query predicate (Mongo returns the first matching
document), `find(q)` is `List.filter`, `update_one(q, u)` updates the first
matching document (`updateFirst`), `$inc` on a dict key is `incCount`,
`$pull` removes all occurrences, `sort(-1)` is an insertion sort by the key
descending, and `skip`/`limit` are `List.drop`/`List.take`.  HTTP error
responses become an `HErr` value; the datastore is modelled as always
reachable, so the 500 branches of the handlers do not arise.  Mutating
handlers return the (possibly unchanged) `DB` next to their result, so that
"state unchanged after a failed attempt" is expressible.
-/

/-- HTTP error statuses raised by the handlers (400/401/403/404). -/
inductive HErr where
  | badRequest
  | unauthorized
  | forbidden
  | notFound
  | internalError
deriving DecidableEq

/-- From `app/models/group.py` : `GroupType` (public / private / secret). -/
inductive GroupType where
  | pub
  | priv
  | secret
deriving DecidableEq

/-- Event privacy (`"public"` / `"private"` strings in `app/models/event.py`). -/
inductive Privacy where
  | pub
  | priv
deriving DecidableEq

/-- A document of the `users` collection. -/
structure UserDoc where
  id : String
  username : String
  email : String
  hashed_password : String
  is_active : Bool
deriving DecidableEq

/-- A document of the `events` collection (fields the handlers read). -/
structure EventDoc where
  id : String
  privacy : Privacy
  creator_id : String
  organizers : List String
  members : List String
  group_id : Option String
  is_active : Bool
deriving DecidableEq

/-- A document of the `groups` collection (fields the handlers read). -/
structure GroupDoc where
  id : String
  type : GroupType
  creator_id : String
  admin_ids : List String
  member_ids : List String
  is_active : Bool
  created_at : Nat
deriving DecidableEq

/-- A question embedded in a poll document (`response_counts` is the Mongo
dict, modelled as an association list). -/
structure QuestionDoc where
  id : String
  answers : List String
  response_counts : List (String × Nat)
deriving DecidableEq

/-- A document of the `polls` collection. -/
structure PollDoc where
  id : String
  event_id : String
  questions : List QuestionDoc
  allow_multiple_votes : Bool
  total_responses : Nat
  is_active : Bool
deriving DecidableEq

/-- A document of the `votes` collection. -/
structure VoteDoc where
  id : String
  poll_id : String
  question_id : String
  user_id : String
  answer : String
deriving DecidableEq

/-- A document of the `ticket_types` collection. -/
structure TicketTypeDoc where
  id : String
  event_id : String
  quantity : Nat
  sold_count : Nat
  max_per_person : Nat
  is_active : Bool
deriving DecidableEq

/-- A document of the `tickets` collection (tickets carry `is_valid`, not
`is_active`). -/
structure TicketDoc where
  id : String
  ticket_type_id : String
  event_id : String
  buyer_id : String
  is_valid : Bool
  checked_in : Bool
deriving DecidableEq

/-- A document of the `shopping_items` collection. -/
structure ShoppingItemDoc where
  id : String
  event_id : String
  name : String
  user_id : String
  is_brought : Bool
  is_active : Bool
deriving DecidableEq

/-- The datastore: one list per Mongo collection the claims touch. -/
structure DB where
  users : List UserDoc
  events : List EventDoc
  groups : List GroupDoc
  polls : List PollDoc
  votes : List VoteDoc
  ticket_types : List TicketTypeDoc
  tickets : List TicketDoc
  shopping_items : List ShoppingItemDoc
deriving DecidableEq

/-- Mongo `update_one(q, u)` : apply `u` to the first document matching `q`. -/
def updateFirst (p : α → Bool) (f : α → α) : List α → List α
  | [] => []
  | x :: xs => if p x then f x :: xs else x :: updateFirst p f xs

/-- Mongo `$inc` of key `k` by 1 in a dict: bump the first binding of `k`,
or append `(k, 1)` when the key is absent. -/
def incCount (l : List (String × Nat)) (k : String) : List (String × Nat) :=
  match l with
  | [] => [(k, 1)]
  | (k', n) :: rest =>
    if k' == k then (k', n + 1) :: rest else (k', n) :: incCount rest k

/-- Read a dict count (0 when the key is absent). -/
def lookupCount (l : List (String × Nat)) (k : String) : Nat :=
  match l.find? (fun kv => kv.1 == k) with
  | some kv => kv.2
  | none => 0

/-- Result of `jwt.decode` on a bearer token: either a `JWTError`, or the
decoded payload's optional `sub` claim.  The JWT library is an external
collaborator; only its outcome matters to `get_current_user`. -/
inductive DecodeResult where
  | decodeError
  | payload (sub : Option String)
deriving DecidableEq

/-- `app/routes/auth.py` : `get_current_user`.  Looks the subject up by
`_id` only — note there is no `is_active` condition in the query. -/
def getCurrentUser (db : DB) (d : DecodeResult) : Except HErr UserDoc :=
  match d with
  | .decodeError => .error .unauthorized
  | .payload none => .error .unauthorized
  | .payload (some uid) =>
    match db.users.find? (fun u => u.id == uid) with
    | none => .error .unauthorized
    | some u => .ok u

/-- `app/utils/validators.py` : `validate_email_unique` (no excluded user):
`true` when an active user already holds the email, in which case the
caller raises 400. -/
def validateEmailUnique (db : DB) (email : String) : Bool :=
  (db.users.find? (fun u => u.email == email && u.is_active)).isSome

/-- `app/routes/auth.py` : `register`.  Password hashing is external, so the
hash arrives as an argument; `freshId` stands for the timestamp-generated
`_id`. -/
def registerUser (db : DB) (username email passwordHash freshId : String) :
    Except HErr UserDoc × DB :=
  if validateEmailUnique db email then (.error .badRequest, db)
  else
    let u : UserDoc :=
      { id := freshId, username := username, email := email,
        hashed_password := passwordHash, is_active := true }
    (.ok u, { db with users := db.users ++ [u] })

/-- `app/routes/users.py` : `get_users` (list, paginated, active only). -/
def getUsers (db : DB) (skipN limitN : Nat) : List UserDoc :=
  ((db.users.filter (fun u => u.is_active)).drop skipN).take limitN

/-- `app/routes/users.py` : `get_user` (point read, active only). -/
def getUser (db : DB) (user_id : String) : Except HErr UserDoc :=
  match db.users.find? (fun u => u.id == user_id && u.is_active) with
  | none => .error .notFound
  | some u => .ok u

/-- `app/routes/users.py` : `delete_user` (soft delete: flips `is_active`). -/
def deleteUser (db : DB) (current user_id : String) : Except HErr Unit × DB :=
  match db.users.find? (fun u => u.id == user_id && u.is_active) with
  | none => (.error .notFound, db)
  | some _ =>
    if !(current == user_id) then (.error .forbidden, db)
    else
      let users2 := updateFirst (fun u => u.id == user_id)
        (fun u => { u with is_active := false }) db.users
      (.ok (), { db with users := users2 })

/-- The id/username/email projection used for organizer/member/admin
details in event and group responses. -/
structure UserDetail where
  id : String
  username : String
  email : String
deriving DecidableEq

/-- Detail lookup for a list of user ids (`find` by id membership and
`is_active`, `to_list(length=len(ids))`, then project). -/
def userDetails (db : DB) (ids : List String) : List UserDetail :=
  if ids.isEmpty then []
  else ((db.users.filter (fun u => ids.contains u.id && u.is_active)).take ids.length).map
    (fun u => { id := u.id, username := u.username, email := u.email })

/-- `EventResponse` of `get_event`: the event plus detail blocks. -/
structure EventResponse where
  event : EventDoc
  organizer_details : List UserDetail
  member_details : List UserDetail
  participant_count : Nat
deriving DecidableEq

/-- `app/routes/events.py` : `get_event`.  404 when absent or inactive; 403
when the event is private and the caller is neither member, organizer nor
creator; otherwise the assembled response. -/
def getEvent (db : DB) (current event_id : String) : Except HErr EventResponse :=
  match db.events.find? (fun e => e.id == event_id && e.is_active) with
  | none => .error .notFound
  | some e =>
    if e.privacy == Privacy.priv &&
        !(e.members.contains current) && !(e.organizers.contains current) &&
        !(e.creator_id == current) then
      .error .forbidden
    else
      .ok { event := e,
            organizer_details := userDetails db e.organizers,
            member_details := userDetails db e.members,
            participant_count := e.organizers.length + e.members.length }

/-- `GroupResponse` of `get_group`: the group plus detail blocks. -/
structure GroupResponse where
  group : GroupDoc
  admin_details : List UserDetail
  member_details : List UserDetail
  member_count : Nat
  event_count : Nat
deriving DecidableEq

/-- `app/routes/groups.py` : `get_group`.  404 when absent or inactive; 403
when the group is secret and the caller is neither member, admin nor
creator. -/
def getGroup (db : DB) (current group_id : String) : Except HErr GroupResponse :=
  match db.groups.find? (fun g => g.id == group_id && g.is_active) with
  | none => .error .notFound
  | some g =>
    if g.type == GroupType.secret &&
        !(g.member_ids.contains current) && !(g.admin_ids.contains current) &&
        !(g.creator_id == current) then
      .error .forbidden
    else
      .ok { group := g,
            admin_details := userDetails db g.admin_ids,
            member_details := userDetails db g.member_ids,
            member_count := g.member_ids.length,
            event_count := (db.events.filter
              (fun e => e.group_id == some group_id && e.is_active)).length }

/-- The query the group-list endpoint builds (`app/routes/groups.py`,
`get_groups`): always `is_active`; with a `group_type` filter, exactly that
type; with none, only public and private types. -/
def groupsQueryPred (group_type : Option GroupType) (g : GroupDoc) : Bool :=
  g.is_active &&
    (match group_type with
     | some t => g.type == t
     | none => g.type == GroupType.pub || g.type == GroupType.priv)

/-- `sort("created_at", -1)`: newest first. -/
def createdAtDesc (a b : GroupDoc) : Prop := b.created_at ≤ a.created_at

instance : DecidableRel createdAtDesc := fun _ b => Nat.decLe b.created_at _

/-- `app/routes/groups.py` : `get_groups`.  The authenticated caller is a
dependency of the route but the built query never mentions them. -/
def getGroups (db : DB) (_current : String) (skipN limitN : Nat)
    (group_type : Option GroupType) : List GroupDoc :=
  ((((db.groups.filter (groupsQueryPred group_type)).insertionSort
      createdAtDesc).drop skipN).take limitN)

/-- `app/routes/groups.py` : `join_group`. -/
def joinGroup (db : DB) (current group_id : String) : Except HErr GroupDoc × DB :=
  match db.groups.find? (fun g => g.id == group_id && g.is_active) with
  | none => (.error .notFound, db)
  | some g =>
    if g.type == GroupType.secret then (.error .forbidden, db)
    else if g.member_ids.contains current then (.error .badRequest, db)
    else if g.admin_ids.contains current then (.error .badRequest, db)
    else
      let groups2 := updateFirst (fun x => x.id == group_id)
        (fun x => { x with member_ids :=
          if x.member_ids.contains current then x.member_ids
          else x.member_ids ++ [current] })
        db.groups
      let db2 := { db with groups := groups2 }
      match groups2.find? (fun x => x.id == group_id) with
      | some g2 => (.ok g2, db2)
      | none => (.error .internalError, db2)

/-- `app/routes/groups.py` : `leave_group`.  400 when not involved at all;
400 when the caller is the sole administrator; otherwise `$pull` from the
member and/or admin arrays. -/
def leaveGroup (db : DB) (current group_id : String) : Except HErr GroupDoc × DB :=
  match db.groups.find? (fun g => g.id == group_id && g.is_active) with
  | none => (.error .notFound, db)
  | some g =>
    if !(g.member_ids.contains current) && !(g.admin_ids.contains current) then
      (.error .badRequest, db)
    else
      let isAdmin := g.admin_ids.contains current
      if isAdmin && g.admin_ids.length == 1 && g.admin_ids.head? == some current then
        (.error .badRequest, db)
      else
        let groups2 := updateFirst (fun x => x.id == group_id)
          (fun x => { x with
            member_ids := if g.member_ids.contains current
              then x.member_ids.filter (fun m => !(m == current)) else x.member_ids,
            admin_ids := if isAdmin
              then x.admin_ids.filter (fun a => !(a == current)) else x.admin_ids })
          db.groups
        let db2 := { db with groups := groups2 }
        match groups2.find? (fun x => x.id == group_id) with
        | some g2 => (.ok g2, db2)
        | none => (.error .internalError, db2)

/-- `ShoppingListResponse` of `get_event_shopping_list`. -/
structure ShoppingListResponse where
  event_id : String
  total_items : Nat
  brought_items : Nat
  pending_items : Nat
  items : List ShoppingItemDoc
deriving DecidableEq

/-- `app/routes/shopping.py` : `get_event_shopping_list`.  The item query is
`find({"event_id": event_id})` — by event only, with no `is_active`
condition (unlike every other read in the module). -/
def getEventShoppingList (db : DB) (current event_id : String) :
    Except HErr ShoppingListResponse :=
  match db.events.find? (fun e => e.id == event_id && e.is_active) with
  | none => .error .notFound
  | some e =>
    if !(e.members.contains current) && !(e.organizers.contains current) then
      .error .forbidden
    else
      let items := (db.shopping_items.filter (fun i => i.event_id == event_id)).take 100
      .ok { event_id := event_id,
            total_items := items.length,
            brought_items := (items.filter (fun i => i.is_brought)).length,
            pending_items := items.length - (items.filter (fun i => i.is_brought)).length,
            items := items }

/-- `app/routes/tickets.py` : `get_user_tickets` (only one's own valid
tickets). -/
def getUserTickets (db : DB) (current user_id : String) : Except HErr (List TicketDoc) :=
  if !(current == user_id) then .error .forbidden
  else .ok ((db.tickets.filter (fun t => t.buyer_id == user_id && t.is_valid)).take 100)

/-- `app/routes/tickets.py` : `purchase_ticket`.  400 when
`quantity - sold_count <= 0` (computed over the integers, as Python does);
400 when the buyer already holds `max_per_person` valid tickets of the
type; else insert the ticket and `$inc` `sold_count`. -/
def purchaseTicket (db : DB) (current ticket_type_id freshId : String) :
    Except HErr TicketDoc × DB :=
  match db.ticket_types.find? (fun t => t.id == ticket_type_id && t.is_active) with
  | none => (.error .notFound, db)
  | some tt =>
    if (tt.quantity : Int) - (tt.sold_count : Int) ≤ 0 then (.error .badRequest, db)
    else
      let userTicketsCount := (db.tickets.filter (fun t =>
        t.ticket_type_id == ticket_type_id && t.buyer_id == current && t.is_valid)).length
      if userTicketsCount ≥ tt.max_per_person then (.error .badRequest, db)
      else
        let ticket : TicketDoc :=
          { id := freshId, ticket_type_id := ticket_type_id,
            event_id := tt.event_id, buyer_id := current, is_valid := true,
            checked_in := false }
        let db2 := { db with
          tickets := db.tickets ++ [ticket],
          ticket_types := updateFirst (fun t => t.id == ticket_type_id)
            (fun t => { t with sold_count := t.sold_count + 1 }) db.ticket_types }
        (.ok ticket, db2)

/-- Body of a vote request (`VoteCreate` in `app/models/poll.py`). -/
structure VoteCreate where
  poll_id : String
  question_id : String
  answer : String
deriving DecidableEq

/-- `VoteResponse` in `app/models/poll.py`. -/
structure VoteResponse where
  success : Bool
  message : String
  poll_id : String
  question_id : String
  chosen_answer : String
  total_votes : Nat
deriving DecidableEq

/-- The `$inc` update `vote_poll` issues on the matched poll: bump
`total_responses` and, in the positionally matched question, the chosen
answer's entry of `response_counts`. -/
def pollCounterInc (vd : VoteCreate) (p : PollDoc) : PollDoc :=
  { p with
    total_responses := p.total_responses + 1,
    questions := updateFirst (fun q => q.id == vd.question_id)
      (fun q => { q with response_counts := incCount q.response_counts vd.answer })
      p.questions }

/-- `app/routes/polls.py` : `vote_poll`.  404 when the poll is absent or
inactive; 403 when the poll's event exists and the caller is not a
participant; 400 when multiple votes are disallowed and a vote by the
caller on this poll already exists; 404 when the question id matches no
question; 400 when the chosen answer is not among the question's declared
answers; else insert the vote, `$inc` the counters, and report the
re-fetched total. -/
def votePoll (db : DB) (current : String) (vd : VoteCreate) (freshId : String) :
    Except HErr VoteResponse × DB :=
  match db.polls.find? (fun p => p.id == vd.poll_id && p.is_active) with
  | none => (.error .notFound, db)
  | some poll =>
    let notParticipant :=
      match db.events.find? (fun e => e.id == poll.event_id && e.is_active) with
      | some e => !(e.members.contains current) && !(e.organizers.contains current)
      | none => false
    if notParticipant then (.error .forbidden, db)
    else if !poll.allow_multiple_votes &&
        (db.votes.find? (fun v => v.poll_id == vd.poll_id && v.user_id == current)).isSome then
      (.error .badRequest, db)
    else
      match poll.questions.find? (fun q => q.id == vd.question_id) with
      | none => (.error .notFound, db)
      | some q =>
        if !(q.answers.contains vd.answer) then (.error .badRequest, db)
        else
          let newVote : VoteDoc :=
            { id := freshId, poll_id := vd.poll_id,
              question_id := vd.question_id, user_id := current, answer := vd.answer }
          let polls2 := updateFirst
            (fun p => p.id == vd.poll_id && p.questions.any (fun qq => qq.id == vd.question_id))
            (pollCounterInc vd) db.polls
          let db2 := { db with votes := db.votes ++ [newVote], polls := polls2 }
          let total :=
            match polls2.find? (fun p => p.id == vd.poll_id) with
            | some p2 => p2.total_responses
            | none => 0
          (.ok { success := true, message := "Vote recorded successfully",
                 poll_id := vd.poll_id, question_id := vd.question_id,
                 chosen_answer := vd.answer, total_votes := total }, db2)

/-- The datastore state after a successful `vote_poll`: the inserted vote
document plus the `$inc` on the matched poll (the `db2` of `votePoll`,
named so the post-state can be talked about). -/
def dbAfterVote (db : DB) (current : String) (vd : VoteCreate) (freshId : String) : DB :=
  { db with
      votes := db.votes ++
        [{ id := freshId, poll_id := vd.poll_id, question_id := vd.question_id,
           user_id := current, answer := vd.answer }],
      polls := updateFirst
        (fun p => p.id == vd.poll_id && p.questions.any (fun qq => qq.id == vd.question_id))
        (pollCounterInc vd) db.polls }

/-! Concrete fixture documents, used to evaluate the handlers on closed
inputs. -/

/-- An active user. -/
def uAlice : UserDoc :=
  { id := "u1", username := "alice", email := "alice@x.io",
    hashed_password := "h1", is_active := true }

/-- Another active user. -/
def uBob : UserDoc :=
  { id := "u2", username := "bob", email := "bob@x.io",
    hashed_password := "h2", is_active := true }

/-- A soft-deleted user. -/
def uCarol : UserDoc :=
  { id := "u3", username := "carol", email := "carol@x.io",
    hashed_password := "h3", is_active := false }

/-- An active user unrelated to the fixture events and groups. -/
def uDave : UserDoc :=
  { id := "u4", username := "dave", email := "dave@x.io",
    hashed_password := "h4", is_active := true }

/-- A private event created by Alice with Bob as member. -/
def evPrivate : EventDoc :=
  { id := "e1", privacy := Privacy.priv, creator_id := "u1",
    organizers := ["u1"], members := ["u2"], group_id := none, is_active := true }

/-- A public event created by Alice with Bob as member. -/
def evPublic : EventDoc :=
  { id := "e2", privacy := Privacy.pub, creator_id := "u1",
    organizers := ["u1"], members := ["u2"], group_id := none, is_active := true }

/-- A secret group: Alice is creator and sole admin, Bob is a member. -/
def grpSecret : GroupDoc :=
  { id := "g1", type := GroupType.secret, creator_id := "u1",
    admin_ids := ["u1"], member_ids := ["u2"], is_active := true, created_at := 7 }

/-- A public group whose sole admin is Alice. -/
def grpSole : GroupDoc :=
  { id := "g2", type := GroupType.pub, creator_id := "u1",
    admin_ids := ["u1"], member_ids := ["u2"], is_active := true, created_at := 3 }

/-- A two-answer question with zeroed counters, as `create_poll` builds. -/
def qColor : QuestionDoc :=
  { id := "q1", answers := ["red", "blue"], response_counts := [("red", 0), ("blue", 0)] }

/-- A single-vote poll on the public event. -/
def pollColor : PollDoc :=
  { id := "p1", event_id := "e2", questions := [qColor],
    allow_multiple_votes := false, total_responses := 0, is_active := true }

/-- A ticket type with no remaining inventory. -/
def ttSoldOut : TicketTypeDoc :=
  { id := "tt1", event_id := "e2", quantity := 2, sold_count := 2,
    max_per_person := 3, is_active := true }

/-- A ticket type with inventory left and a one-per-person cap. -/
def ttOpen : TicketTypeDoc :=
  { id := "tt2", event_id := "e2", quantity := 5, sold_count := 1,
    max_per_person := 1, is_active := true }

/-- Bob's valid ticket of type `tt2` — Bob is at the per-person cap. -/
def tkBob : TicketDoc :=
  { id := "tk1", ticket_type_id := "tt2", event_id := "e2", buyer_id := "u2",
    is_valid := true, checked_in := false }

/-- A soft-deleted shopping item of the private event. -/
def itemInactive : ShoppingItemDoc :=
  { id := "s1", event_id := "e1", name := "chips", user_id := "u1",
    is_brought := false, is_active := false }

/-- The fixture datastore for the closed evaluations. -/
def sampleDB : DB :=
  { users := [uAlice, uBob, uCarol, uDave],
    events := [evPrivate, evPublic],
    groups := [grpSecret, grpSole],
    polls := [pollColor],
    votes := [],
    ticket_types := [ttSoldOut, ttOpen],
    tickets := [tkBob],
    shopping_items := [itemInactive] }

/-! Generic lemmas about the list model of the document store. -/

/-- Strengthening a `find?`: the first document matching `f` also satisfies
`g`, so it is the first document matching the conjunction. -/
theorem find?_and_right {α} {f g : α → Bool} {l : List α} {a : α}
    (h : l.find? f = some a) (hg : g a = true) :
    l.find? (fun x => f x && g x) = some a := by
  induction l with
  | nil => simp at h
  | cons x xs ih =>
    cases hx : f x with
    | true =>
      rw [List.find?_cons_of_pos _ hx] at h
      cases h
      exact List.find?_cons_of_pos _ (by simp [hx, hg])
    | false =>
      rw [List.find?_cons_of_neg _ (by simp [hx])] at h
      rw [List.find?_cons_of_neg _ (by simp [hx])]
      exact ih h

/-- `update_one` followed by re-reading with the original filter: when the
update filter `q` selects the same first document `a` as the read filter
`f` (because `q` implies `f` and `a` satisfies `q`), the re-read returns
the updated document. -/
theorem find?_updateFirst {α} {f q : α → Bool} {u : α → α} {l : List α} {a : α}
    (h : l.find? f = some a) (hq : q a = true)
    (himp : ∀ x, q x = true → f x = true) (hu : f (u a) = true) :
    (updateFirst q u l).find? f = some (u a) := by
  induction l with
  | nil => simp at h
  | cons x xs ih =>
    cases hx : f x with
    | true =>
      rw [List.find?_cons_of_pos _ hx] at h
      cases h
      unfold updateFirst
      rw [if_pos hq]
      exact List.find?_cons_of_pos _ hu
    | false =>
      have hqx : q x = false := by
        cases hqx : q x with
        | true => rw [himp x hqx] at hx; exact absurd hx (by simp)
        | false => rfl
      rw [List.find?_cons_of_neg _ (by simp [hx])] at h
      unfold updateFirst
      rw [if_neg (by simp [hqx])]
      rw [List.find?_cons_of_neg _ (by simp [hx])]
      exact ih h

/-- `$inc` of key `k` raises the stored count of `k` by exactly one. -/
theorem lookupCount_incCount (l : List (String × Nat)) (k : String) :
    lookupCount (incCount l k) k = lookupCount l k + 1 := by
  induction l with
  | nil => simp [incCount, lookupCount]
  | cons kv rest ih =>
    obtain ⟨k', n⟩ := kv
    cases hk : (k' == k) with
    | true =>
      simp only [incCount, hk, if_pos]
      simp [lookupCount, List.find?_cons, hk]
    | false =>
      simp only [incCount, hk, Bool.false_eq_true, if_neg, not_false_iff]
      simp only [lookupCount] at ih ⊢
      rw [List.find?_cons_of_neg _ (by simp [hk]), List.find?_cons_of_neg _ (by simp [hk])]
      exact ih

/-- `find_one(q)` succeeds exactly when some document matches `q`. -/
theorem find?_isSome_eq_any {α} (l : List α) (p : α → Bool) :
    (l.find? p).isSome = l.any p := by
  induction l with
  | nil => rfl
  | cons x xs ih => cases hx : p x <;> simp [List.find?_cons, hx, ih]

/-- C2: a leave request by the sole administrator of an active group fails
with BadRequest (400) and leaves the datastore — in particular the group's
document — untouched. -/
theorem sole_admin_leave_rejected
    (db : DB) (current group_id : String) (g : GroupDoc)
    (h : db.groups.find? (fun x => x.id == group_id && x.is_active) = some g)
    (hadm : g.admin_ids = [current]) :
    leaveGroup db current group_id = (Except.error HErr.badRequest, db) := by
  simp only [leaveGroup, h]
  simp [hadm]

/-- C2 witness: Alice is the sole admin of the fixture group `g2`; her leave
attempt fails with 400 and the datastore is unchanged. -/
theorem sole_admin_leave_rejected_witness :
    leaveGroup sampleDB "u1" "g2" = (Except.error HErr.badRequest, sampleDB) :=
  sole_admin_leave_rejected sampleDB "u1" "g2" grpSole (by decide) (by decide)

/-- C7: for an active private event, a get by a user who is neither member,
organizer nor creator fails with Forbidden (403), while a get by a member
succeeds with the assembled event response (200). -/
theorem private_event_access
    (db : DB) (current event_id : String) (e : EventDoc)
    (h : db.events.find? (fun x => x.id == event_id && x.is_active) = some e)
    (hpriv : e.privacy = Privacy.priv) :
    (current ∉ e.members → current ∉ e.organizers → e.creator_id ≠ current →
      getEvent db current event_id = Except.error HErr.forbidden) ∧
    (current ∈ e.members →
      getEvent db current event_id = Except.ok
        { event := e,
          organizer_details := userDetails db e.organizers,
          member_details := userDetails db e.members,
          participant_count := e.organizers.length + e.members.length }) := by
  constructor
  · intro h1 h2 h3
    simp only [getEvent, h]
    simp [hpriv, h1, h2, h3]
  · intro h1
    simp only [getEvent, h]
    simp [h1]

/-- C7 witness: Dave can not read the fixture private event `e1`; member Bob
receives the event data. -/
theorem private_event_access_witness :
    getEvent sampleDB "u4" "e1" = Except.error HErr.forbidden ∧
    getEvent sampleDB "u2" "e1" = Except.ok
      { event := evPrivate,
        organizer_details := userDetails sampleDB evPrivate.organizers,
        member_details := userDetails sampleDB evPrivate.members,
        participant_count := evPrivate.organizers.length + evPrivate.members.length } := by
  constructor
  · exact (private_event_access sampleDB "u4" "e1" evPrivate (by decide) (by decide)).1
      (by decide) (by decide) (by decide)
  · exact (private_event_access sampleDB "u2" "e1" evPrivate (by decide) (by decide)).2
      (by decide)

/-- C8: an active secret group is invisible to a user who is neither member,
admin nor creator (403 on get), and a join request on it fails for every
caller whatsoever, with the datastore unchanged. -/
theorem secret_group_hidden_and_unjoinable
    (db : DB) (current group_id : String) (g : GroupDoc)
    (h : db.groups.find? (fun x => x.id == group_id && x.is_active) = some g)
    (ht : g.type = GroupType.secret) :
    (current ∉ g.member_ids → current ∉ g.admin_ids → g.creator_id ≠ current →
      getGroup db current group_id = Except.error HErr.forbidden) ∧
    joinGroup db current group_id = (Except.error HErr.forbidden, db) := by
  constructor
  · intro h1 h2 h3
    simp only [getGroup, h]
    simp [ht, h1, h2, h3]
  · simp only [joinGroup, h]
    simp [ht]

/-- C8 witness: outsider Dave can not read the fixture secret group `g1`,
and neither Dave nor member Bob can join it. -/
theorem secret_group_hidden_and_unjoinable_witness :
    getGroup sampleDB "u4" "g1" = Except.error HErr.forbidden ∧
    joinGroup sampleDB "u4" "g1" = (Except.error HErr.forbidden, sampleDB) ∧
    joinGroup sampleDB "u2" "g1" = (Except.error HErr.forbidden, sampleDB) := by
  refine ⟨?_, ?_, ?_⟩
  · exact (secret_group_hidden_and_unjoinable sampleDB "u4" "g1" grpSecret (by decide)
      (by decide)).1 (by decide) (by decide) (by decide)
  · exact (secret_group_hidden_and_unjoinable sampleDB "u4" "g1" grpSecret (by decide)
      (by decide)).2
  · exact (secret_group_hidden_and_unjoinable sampleDB "u2" "g1" grpSecret (by decide)
      (by decide)).2

/-- C9: registering an email held by an active user fails with the 400
Conflict error and writes nothing; registering succeeds with a new active
user document whenever no active user holds the email; and a self-delete
soft-deletes the addressed user document, which is what makes the email
available again. -/
theorem email_conflict_and_reregistration
    (db : DB) (username email passwordHash freshId hid : String) (holder : UserDoc) :
    (db.users.any (fun u => u.email == email && u.is_active) = true →
      registerUser db username email passwordHash freshId =
        (Except.error HErr.badRequest, db)) ∧
    (db.users.any (fun u => u.email == email && u.is_active) = false →
      registerUser db username email passwordHash freshId =
        (Except.ok { id := freshId, username := username, email := email,
                     hashed_password := passwordHash, is_active := true },
         { db with users := db.users ++
             [{ id := freshId, username := username, email := email,
                hashed_password := passwordHash, is_active := true }] })) ∧
    (db.users.find? (fun u => u.id == hid && u.is_active) = some holder →
      deleteUser db hid hid =
        (Except.ok (),
         { db with users := updateFirst (fun u => u.id == hid)
                     (fun u => { u with is_active := false }) db.users })) := by
  refine ⟨?_, ?_, ?_⟩
  · intro h1
    simp only [registerUser, validateEmailUnique, find?_isSome_eq_any, h1]
    simp
  · intro h1
    simp only [registerUser, validateEmailUnique, find?_isSome_eq_any, h1]
    simp
  · intro h1
    simp only [deleteUser, h1]
    simp

/-- C9 witness: on the fixture datastore, registering Alice's email fails
with 400 and changes nothing; after Alice soft-deletes herself the same
email registers successfully. -/
theorem email_conflict_and_reregistration_witness :
    registerUser sampleDB "eve" "alice@x.io" "h9" "u9" =
      (Except.error HErr.badRequest, sampleDB) ∧
    (registerUser (deleteUser sampleDB "u1" "u1").2 "eve" "alice@x.io" "h9" "u9").1 =
      Except.ok { id := "u9", username := "eve", email := "alice@x.io",
                  hashed_password := "h9", is_active := true } := by
  constructor
  · exact (email_conflict_and_reregistration sampleDB "eve" "alice@x.io" "h9" "u9"
      "u1" uAlice).1 (by decide)
  · have h2 := (email_conflict_and_reregistration (deleteUser sampleDB "u1" "u1").2
      "eve" "alice@x.io" "h9" "u9" "u1" uAlice).2.1 (by decide)
    rw [h2]

/-- C10: with the query filter `group_type=secret`, the group-list endpoint
returns the same page to every authenticated caller, and an active secret
group within the page is included — no membership or admin condition is
applied. -/
theorem secret_group_listed_under_type_filter
    (db : DB) (user1 user2 : String) (limitN : Nat) (g : GroupDoc)
    (hmem : g ∈ db.groups) (hact : g.is_active = true)
    (ht : g.type = GroupType.secret)
    (hlen : (db.groups.filter (groupsQueryPred (some GroupType.secret))).length ≤ limitN) :
    getGroups db user1 0 limitN (some GroupType.secret) =
      getGroups db user2 0 limitN (some GroupType.secret) ∧
    g ∈ getGroups db user1 0 limitN (some GroupType.secret) := by
  constructor
  · rfl
  · have hfil : g ∈ db.groups.filter (groupsQueryPred (some GroupType.secret)) :=
      List.mem_filter.mpr ⟨hmem, by simp [groupsQueryPred, hact, ht]⟩
    have hperm := List.perm_insertionSort createdAtDesc
      (db.groups.filter (groupsQueryPred (some GroupType.secret)))
    unfold getGroups
    rw [List.drop_zero, List.take_of_length_le (by rw [hperm.length_eq]; exact hlen)]
    exact hperm.mem_iff.mpr hfil

/-- C10 witness: the fixture secret group `g1` is listed for the outsider
Dave under the `group_type=secret` filter, and Dave and member Bob get the
same page. -/
theorem secret_group_listed_under_type_filter_witness :
    getGroups sampleDB "u4" 0 10 (some GroupType.secret) =
      getGroups sampleDB "u2" 0 10 (some GroupType.secret) ∧
    grpSecret ∈ getGroups sampleDB "u4" 0 10 (some GroupType.secret) :=
  secret_group_listed_under_type_filter sampleDB "u4" "u2" 10 grpSecret
    (by decide) (by decide) (by decide) (by decide)

/-- C1: evaluation at the failing input.  The fixture shopping item `s1` is
soft-deleted (`is_active=false`), yet the shopping-list endpoint returns it
to member Bob: the item query of `get_event_shopping_list` filters by
`event_id` only, with no `is_active` condition, contradicting the uniform
read-filter rule the other list/get endpoints implement. -/
theorem inactive_shopping_item_listed :
    getEventShoppingList sampleDB "u2" "e1" =
      Except.ok { event_id := "e1", total_items := 1, brought_items := 0,
                  pending_items := 1, items := [itemInactive] } ∧
    itemInactive.is_active = false := by
  constructor
  · rfl
  · rfl

/-- C4 counterexample: Carol's user document is soft-deleted
(`is_active=false`), yet a token that decodes to subject `u3`
authenticates and resolves to Carol — `get_current_user` looks the subject
up by `_id` alone. -/
theorem soft_deleted_user_authenticates :
    getCurrentUser sampleDB (DecodeResult.payload (some "u3")) = Except.ok uCarol ∧
    uCarol.is_active = false := by
  constructor
  · rfl
  · rfl

/-- C4 amended: `authenticate` fails with Unauthorized when the token fails
to decode, carries no subject, or references no user document at all; when
a user document with the subject's id exists it is returned, whether or
not it is still active — so a valid token of a soft-deleted user still
authenticates. -/
theorem authenticate_contract
    (db : DB) (uid : String) (u : UserDoc) :
    getCurrentUser db DecodeResult.decodeError = Except.error HErr.unauthorized ∧
    getCurrentUser db (DecodeResult.payload none) = Except.error HErr.unauthorized ∧
    (db.users.find? (fun x => x.id == uid) = none →
      getCurrentUser db (DecodeResult.payload (some uid)) =
        Except.error HErr.unauthorized) ∧
    (db.users.find? (fun x => x.id == uid) = some u →
      getCurrentUser db (DecodeResult.payload (some uid)) = Except.ok u) := by
  refine ⟨rfl, rfl, ?_, ?_⟩ <;> intro h <;> simp only [getCurrentUser, h]

/-- C4 witness: unknown subject `u8` is rejected with 401; the soft-deleted
Carol (`u3`) is resolved and returned. -/
theorem authenticate_contract_witness :
    getCurrentUser sampleDB (DecodeResult.payload (some "u8")) =
      Except.error HErr.unauthorized ∧
    getCurrentUser sampleDB (DecodeResult.payload (some "u3")) = Except.ok uCarol := by
  constructor
  · exact (authenticate_contract sampleDB "u8" uCarol).2.2.1 (by decide)
  · exact (authenticate_contract sampleDB "u3" uCarol).2.2.2 (by decide)

/-- C6: ticket purchase on an active ticket type — 400 when inventory is
exhausted; 400 when the buyer is at the per-person cap even with inventory
left; otherwise the ticket is created and `sold_count` rises by exactly 1. -/
theorem ticket_purchase_rules
    (db : DB) (current ticket_type_id freshId : String) (tt : TicketTypeDoc)
    (h : db.ticket_types.find? (fun x => x.id == ticket_type_id) = some tt)
    (hact : tt.is_active = true) :
    ((tt.quantity : Int) - (tt.sold_count : Int) ≤ 0 →
      purchaseTicket db current ticket_type_id freshId =
        (Except.error HErr.badRequest, db)) ∧
    (0 < (tt.quantity : Int) - (tt.sold_count : Int) →
      tt.max_per_person ≤ (db.tickets.filter (fun t =>
          t.ticket_type_id == ticket_type_id && t.buyer_id == current && t.is_valid)).length →
      purchaseTicket db current ticket_type_id freshId =
        (Except.error HErr.badRequest, db)) ∧
    (0 < (tt.quantity : Int) - (tt.sold_count : Int) →
      (db.tickets.filter (fun t =>
          t.ticket_type_id == ticket_type_id && t.buyer_id == current && t.is_valid)).length
        < tt.max_per_person →
      purchaseTicket db current ticket_type_id freshId =
        (Except.ok { id := freshId, ticket_type_id := ticket_type_id,
                     event_id := tt.event_id, buyer_id := current,
                     is_valid := true, checked_in := false },
         { db with
             tickets := db.tickets ++
               [{ id := freshId, ticket_type_id := ticket_type_id,
                  event_id := tt.event_id, buyer_id := current,
                  is_valid := true, checked_in := false }],
             ticket_types := updateFirst (fun t => t.id == ticket_type_id)
               (fun t => { t with sold_count := t.sold_count + 1 }) db.ticket_types }) ∧
      ((updateFirst (fun t => t.id == ticket_type_id)
          (fun t => { t with sold_count := t.sold_count + 1 })
          db.ticket_types).find? (fun x => x.id == ticket_type_id)).map
        TicketTypeDoc.sold_count = some (tt.sold_count + 1)) := by
  have hread : db.ticket_types.find? (fun x => x.id == ticket_type_id && x.is_active)
      = some tt := find?_and_right h hact
  have hid : (tt.id == ticket_type_id) = true := by simpa using List.find?_some h
  refine ⟨?_, ?_, ?_⟩
  · intro h1
    simp only [purchaseTicket, hread]
    rw [if_pos h1]
  · intro h1 h2
    simp only [purchaseTicket, hread]
    rw [if_neg (by omega), if_pos h2]
  · intro h1 h2
    constructor
    · simp only [purchaseTicket, hread]
      rw [if_neg (by omega), if_neg (by omega)]
    · have hupd := find?_updateFirst (u := fun t =>
        { t with sold_count := t.sold_count + 1 }) h hid (fun x hx => hx) hid
      rw [hupd]
      rfl

/-- C6 witness: the sold-out fixture type `tt1` rejects Alice; `tt2` rejects
Bob who is at his cap of 1 despite 4 tickets remaining; Alice's purchase of
`tt2` succeeds and raises its `sold_count` from 1 to 2. -/
theorem ticket_purchase_rules_witness :
    purchaseTicket sampleDB "u1" "tt1" "tk9" = (Except.error HErr.badRequest, sampleDB) ∧
    purchaseTicket sampleDB "u2" "tt2" "tk9" = (Except.error HErr.badRequest, sampleDB) ∧
    (purchaseTicket sampleDB "u1" "tt2" "tk9").1 =
      Except.ok { id := "tk9", ticket_type_id := "tt2", event_id := "e2",
                  buyer_id := "u1", is_valid := true, checked_in := false } ∧
    ((purchaseTicket sampleDB "u1" "tt2" "tk9").2.ticket_types.find?
        (fun x => x.id == "tt2")).map TicketTypeDoc.sold_count = some 2 := by
  refine ⟨?_, ?_, ?_, ?_⟩
  · exact (ticket_purchase_rules sampleDB "u1" "tt1" "tk9" ttSoldOut
      (by decide) (by decide)).1 (by decide)
  · exact (ticket_purchase_rules sampleDB "u2" "tt2" "tk9" ttOpen
      (by decide) (by decide)).2.1 (by decide) (by decide)
  · have h3 := (ticket_purchase_rules sampleDB "u1" "tt2" "tk9" ttOpen
      (by decide) (by decide)).2.2 (by decide) (by decide)
    rw [h3.1]
    rfl
  · have h3 := (ticket_purchase_rules sampleDB "u1" "tt2" "tk9" ttOpen
      (by decide) (by decide)).2.2 (by decide) (by decide)
    rw [h3.1]
    exact h3.2

/-- C5 counterexample: on the fixture poll, participant Bob votes for
`green`, which is not among the declared answers of question `q1`; the
request fails with BadRequest (400), not with NotFound as claimed. -/
theorem invalid_answer_is_bad_request_not_not_found :
    (votePoll sampleDB "u2" ⟨"p1", "q1", "green"⟩ "v9").1 = Except.error HErr.badRequest ∧
    (votePoll sampleDB "u2" ⟨"p1", "q1", "green"⟩ "v9").1 ≠ Except.error HErr.notFound := by
  constructor
  · rfl
  · rw [show (votePoll sampleDB "u2" ⟨"p1", "q1", "green"⟩ "v9").1 =
        Except.error HErr.badRequest from rfl]
    simp

/-- C5 amended: on an active poll whose event admits the caller, a vote
whose chosen answer is not among the matched question's declared answers
fails with BadRequest (NotFound is reserved for a question id matching no
question of the poll); a non-participant fails with Forbidden; a duplicate
vote under `allow_multiple_votes=false` fails with BadRequest.  Each
failure leaves the datastore unchanged. -/
theorem vote_error_taxonomy
    (db : DB) (current freshId : String) (vd : VoteCreate)
    (p : PollDoc) (q : QuestionDoc) (e : EventDoc)
    (hp : db.polls.find? (fun x => x.id == vd.poll_id && x.is_active) = some p)
    (he : db.events.find? (fun x => x.id == p.event_id && x.is_active) = some e) :
    ((current ∈ e.members ∨ current ∈ e.organizers) →
      (p.allow_multiple_votes = false →
        db.votes.any (fun v => v.poll_id == vd.poll_id && v.user_id == current) = false) →
      p.questions.find? (fun x => x.id == vd.question_id) = some q →
      vd.answer ∉ q.answers →
      votePoll db current vd freshId = (Except.error HErr.badRequest, db)) ∧
    (current ∉ e.members → current ∉ e.organizers →
      votePoll db current vd freshId = (Except.error HErr.forbidden, db)) ∧
    ((current ∈ e.members ∨ current ∈ e.organizers) →
      p.allow_multiple_votes = false →
      db.votes.any (fun v => v.poll_id == vd.poll_id && v.user_id == current) = true →
      votePoll db current vd freshId = (Except.error HErr.badRequest, db)) ∧
    ((current ∈ e.members ∨ current ∈ e.organizers) →
      (p.allow_multiple_votes = false →
        db.votes.any (fun v => v.poll_id == vd.poll_id && v.user_id == current) = false) →
      p.questions.find? (fun x => x.id == vd.question_id) = none →
      votePoll db current vd freshId = (Except.error HErr.notFound, db)) := by
  refine ⟨?_, ?_, ?_, ?_⟩
  · intro hpart hguard hq hans
    have hdup : (!p.allow_multiple_votes && (db.votes.find?
        (fun v => v.poll_id == vd.poll_id && v.user_id == current)).isSome) = false := by
      cases hm : p.allow_multiple_votes
      · simp [find?_isSome_eq_any, hguard hm]
      · simp
    rcases hpart with hmem | hmem <;>
      simp [votePoll, hp, he, hmem, hdup, hq, hans]
  · intro h1 h2
    simp [votePoll, hp, he, h1, h2]
  · intro hpart hm hdup
    rcases hpart with hmem | hmem <;>
      simp [votePoll, hp, he, hmem, hm, hdup, find?_isSome_eq_any]
  · intro hpart hguard hq
    have hdup : (!p.allow_multiple_votes && (db.votes.find?
        (fun v => v.poll_id == vd.poll_id && v.user_id == current)).isSome) = false := by
      cases hm : p.allow_multiple_votes
      · simp [find?_isSome_eq_any, hguard hm]
      · simp
    rcases hpart with hmem | hmem <;>
      simp [votePoll, hp, he, hmem, hdup, hq]

/-- C5 witness for the amended taxonomy, on the fixture poll: Bob's vote
for undeclared answer `green` gets 400; outsider Dave gets 403; an unknown
question id gets 404. -/
theorem vote_error_taxonomy_witness :
    votePoll sampleDB "u2" ⟨"p1", "q1", "green"⟩ "v9" =
      (Except.error HErr.badRequest, sampleDB) ∧
    votePoll sampleDB "u4" ⟨"p1", "q1", "red"⟩ "v9" =
      (Except.error HErr.forbidden, sampleDB) ∧
    votePoll sampleDB "u2" ⟨"p1", "q7", "red"⟩ "v9" =
      (Except.error HErr.notFound, sampleDB) := by
  refine ⟨?_, ?_, ?_⟩
  · exact (vote_error_taxonomy sampleDB "u2" "v9" ⟨"p1", "q1", "green"⟩ pollColor qColor
      evPublic (by decide) (by decide)).1 (by decide) (fun _ => by decide) (by decide)
      (by decide)
  · exact (vote_error_taxonomy sampleDB "u4" "v9" ⟨"p1", "q1", "red"⟩ pollColor qColor
      evPublic (by decide) (by decide)).2.1 (by decide) (by decide)
  · exact (vote_error_taxonomy sampleDB "u2" "v9" ⟨"p1", "q7", "red"⟩ pollColor qColor
      evPublic (by decide) (by decide)).2.2.2 (by decide) (fun _ => by decide) (by decide)

/-- C3: on an active single-vote poll (`allow_multiple_votes=false`) whose
event admits the caller as participant, a first vote with a declared answer
succeeds, inserts the vote, and increments the poll's `total_responses` and
the chosen answer's response count by exactly 1; an immediate second vote
by the same user on the same poll fails with BadRequest and leaves the
datastore — counters included — unchanged. -/
theorem single_vote_poll_vote_twice
    (db : DB) (current freshId freshId2 : String) (vd : VoteCreate)
    (p : PollDoc) (q : QuestionDoc) (e : EventDoc)
    (hp : db.polls.find? (fun x => x.id == vd.poll_id) = some p)
    (hact : p.is_active = true)
    (hmulti : p.allow_multiple_votes = false)
    (he : db.events.find? (fun x => x.id == p.event_id && x.is_active) = some e)
    (hpart : current ∈ e.members ∨ current ∈ e.organizers)
    (hnov : db.votes.any (fun v => v.poll_id == vd.poll_id && v.user_id == current) = false)
    (hq : p.questions.find? (fun x => x.id == vd.question_id) = some q)
    (hans : vd.answer ∈ q.answers) :
    votePoll db current vd freshId =
      (Except.ok { success := true, message := "Vote recorded successfully",
                   poll_id := vd.poll_id, question_id := vd.question_id,
                   chosen_answer := vd.answer,
                   total_votes := p.total_responses + 1 },
       dbAfterVote db current vd freshId) ∧
    ((dbAfterVote db current vd freshId).polls.find? (fun x => x.id == vd.poll_id)).map
        PollDoc.total_responses = some (p.total_responses + 1) ∧
    ((dbAfterVote db current vd freshId).polls.find? (fun x => x.id == vd.poll_id)).map
        (fun pp => (pp.questions.find? (fun x => x.id == vd.question_id)).map
          (fun qq => lookupCount qq.response_counts vd.answer)) =
      some (some (lookupCount q.response_counts vd.answer + 1)) ∧
    votePoll (dbAfterVote db current vd freshId) current vd freshId2 =
      (Except.error HErr.badRequest, dbAfterVote db current vd freshId) := by
  have hpread : db.polls.find? (fun x => x.id == vd.poll_id && x.is_active) = some p :=
    find?_and_right hp hact
  have hpid : (p.id == vd.poll_id) = true := by simpa using List.find?_some hp
  have hqid : (q.id == vd.question_id) = true := by simpa using List.find?_some hq
  have hqany : p.questions.any (fun qq => qq.id == vd.question_id) = true :=
    List.any_eq_true.mpr ⟨q, List.mem_of_find?_eq_some hq, hqid⟩
  have hupd : (updateFirst
      (fun x => x.id == vd.poll_id && x.questions.any (fun qq => qq.id == vd.question_id))
      (pollCounterInc vd) db.polls).find? (fun x => x.id == vd.poll_id)
        = some (pollCounterInc vd p) := by
    refine find?_updateFirst hp ?_ ?_ ?_
    · simp [hpid, hqany]
    · intro x hx
      rw [Bool.and_eq_true] at hx
      exact hx.1
    · exact hpid
  have hq2 : (pollCounterInc vd p).questions.find? (fun x => x.id == vd.question_id)
      = some { q with response_counts := incCount q.response_counts vd.answer } :=
    find?_updateFirst hq hqid (fun _ hx => hx) hqid
  have hdup : (!p.allow_multiple_votes && (db.votes.find?
      (fun v => v.poll_id == vd.poll_id && v.user_id == current)).isSome) = false := by
    simp [find?_isSome_eq_any, hnov]
  have hrun : votePoll db current vd freshId =
      (Except.ok { success := true, message := "Vote recorded successfully",
                   poll_id := vd.poll_id, question_id := vd.question_id,
                   chosen_answer := vd.answer,
                   total_votes := p.total_responses + 1 },
       dbAfterVote db current vd freshId) := by
    rcases hpart with hmem | hmem <;>
      simp [votePoll, hpread, he, hmem, hdup, hq, hans, hupd, dbAfterVote, pollCounterInc]
  refine ⟨hrun, ?_, ?_, ?_⟩
  · simp only [dbAfterVote, hupd, Option.map_some']
    rfl
  · simp only [dbAfterVote, hupd, Option.map_some']
    rw [hq2]
    simp [lookupCount_incCount]
  · have hpread2 : (updateFirst
        (fun x => x.id == vd.poll_id && x.questions.any (fun qq => qq.id == vd.question_id))
        (pollCounterInc vd) db.polls).find? (fun x => x.id == vd.poll_id && x.is_active)
          = some (pollCounterInc vd p) :=
      find?_and_right hupd (show (pollCounterInc vd p).is_active = true from hact)
    have hdup2 : ((dbAfterVote db current vd freshId).votes.find?
        (fun v => v.poll_id == vd.poll_id && v.user_id == current)).isSome = true := by
      rw [find?_isSome_eq_any]
      simp [dbAfterVote]
    rcases hpart with hmem | hmem <;>
      simp [votePoll, hpread2, dbAfterVote, he, hmem, hmulti, hdup2, pollCounterInc]

/-- C3 witness: Bob's first vote `red` on the fixture poll succeeds with
`total_votes = 1`, the stored counters read 1, and his immediate second
vote fails with 400 leaving the datastore as it was after the first. -/
theorem single_vote_poll_vote_twice_witness :
    (votePoll sampleDB "u2" ⟨"p1", "q1", "red"⟩ "v1").1 =
      Except.ok { success := true, message := "Vote recorded successfully",
                  poll_id := "p1", question_id := "q1", chosen_answer := "red",
                  total_votes := 1 } ∧
    ((dbAfterVote sampleDB "u2" ⟨"p1", "q1", "red"⟩ "v1").polls.find?
        (fun x => x.id == "p1")).map PollDoc.total_responses = some 1 ∧
    ((dbAfterVote sampleDB "u2" ⟨"p1", "q1", "red"⟩ "v1").polls.find?
        (fun x => x.id == "p1")).map
        (fun pp => (pp.questions.find? (fun x => x.id == "q1")).map
          (fun qq => lookupCount qq.response_counts "red")) = some (some 1) ∧
    votePoll (dbAfterVote sampleDB "u2" ⟨"p1", "q1", "red"⟩ "v1") "u2"
        ⟨"p1", "q1", "red"⟩ "v2" =
      (Except.error HErr.badRequest, dbAfterVote sampleDB "u2" ⟨"p1", "q1", "red"⟩ "v1") := by
  have H := single_vote_poll_vote_twice sampleDB "u2" "v1" "v2" ⟨"p1", "q1", "red"⟩
    pollColor qColor evPublic (by decide) (by decide) (by decide) (by decide)
    (by decide) (by decide) (by decide) (by decide)
  refine ⟨?_, ?_, ?_, ?_⟩
  · rw [H.1]
    rfl
  · exact H.2.1
  · exact H.2.2.1
  · exact H.2.2.2
